import Mathlib

/-!
# Connection/Session lifecycle controller — shallow embedding

This file embeds the connection/session lifecycle controller of the
`WhatsAppBot` class (`src/index.js`) in Lean 4 and proves properties of
its disconnect classification, retry counting, backoff, pairing flow and
session-store clearing.

The embedding is state-passing: the mutable fields of the `WhatsAppBot`
object (`qrRetries`, `connectionAttempts`, the bounds set in the
constructor, and the session folder contents touched by
`clearSessionData`) become a `BotState` record; each event handler is a
pure function from a state and an event to a new state together with the
list of timers it schedules (`setTimeout` calls).
-/

namespace WhatsAppBot

/-! ## String helpers mirroring the JavaScript primitives used -/

/-- `leadsWith s p` is true when the character list `s` starts with `p`
(the semantics of JavaScript `String.prototype.startsWith`). -/
def leadsWith : List Char → List Char → Bool
  | _, [] => true
  | [], _ :: _ => false
  | c :: cs, d :: ds => c == d && leadsWith cs ds

/-- `containsSub s sub` is true when `sub` occurs as a contiguous
subsequence of `s` (the semantics of JavaScript
`String.prototype.includes`). -/
def containsSub : List Char → List Char → Bool
  | [], sub => leadsWith [] sub
  | c :: cs, sub => leadsWith (c :: cs) sub || containsSub cs sub

/-- JavaScript `message.includes(sub)`. -/
def jsIncludes (s sub : String) : Bool :=
  containsSub s.data sub.data

/-- JavaScript `s.startsWith(p)`. -/
def jsStartsWith (s p : String) : Bool :=
  leadsWith s.data p.data

/-- JavaScript `s.substring(n)` for a character index `n`. -/
def jsDrop (s : String) (n : Nat) : String :=
  ⟨s.data.drop n⟩

/-- JavaScript `s.length` (all strings involved are ASCII digits). -/
def jsLength (s : String) : Nat :=
  s.data.length

/-- JavaScript `s.replace(/[^0-9]/g, '')`. -/
def stripNonDigits (s : String) : String :=
  ⟨s.data.filter Char.isDigit⟩

/-- JavaScript `s.replace(/^27/, '')`. -/
def replaceLeading27 (p : String) : String :=
  if jsStartsWith p "27" then jsDrop p 2 else p

/-! ## Session store (`clearSessionData`, `config.SESSION_FOLDER`) -/

/-- One directory entry of the session folder; `clearSessionData` only
unlinks entries for which `fs.statSync(path).isFile()` holds. -/
structure FsEntry where
  name : String
  file : Bool
deriving DecidableEq, Repr

/-- The session folder on disk: `none` when the folder does not exist
(`fs.existsSync` is false), otherwise the list of its entries. -/
abbrev SessionDir := Option (List FsEntry)

/-- `clearSessionData`'s effect on the session folder: if the folder
exists, unlink every regular file in it (other entries survive); if it
does not exist, do nothing.  Errors are caught and logged in the source,
so the operation is total. -/
def clearStore : SessionDir → SessionDir
  | none => none
  | some entries => some (entries.filter (fun e => !e.file))

/-- The regular files persisted in the session folder. -/
def storeFiles : SessionDir → List FsEntry
  | none => []
  | some entries => entries.filter (fun e => e.file)

/-! ## Bot state -/

/-- The mutable fields of the `WhatsAppBot` object, plus the session
folder it owns. -/
structure BotState where
  qrRetries : Nat
  maxQrRetries : Nat
  connectionAttempts : Nat
  maxConnectionAttempts : Nat
  sessionFiles : SessionDir
deriving DecidableEq, Repr

/-- The state after the constructor runs (`qrRetries = 0`,
`maxQrRetries = 5`, `connectionAttempts = 0`,
`maxConnectionAttempts = 10`), with a given session folder on disk. -/
def mkBot (dir : SessionDir) : BotState :=
  { qrRetries := 0
    maxQrRetries := 5
    connectionAttempts := 0
    maxConnectionAttempts := 10
    sessionFiles := dir }

/-- `this.clearSessionData()` as a state transformer. -/
def clearSessionData (s : BotState) : BotState :=
  { s with sessionFiles := clearStore s.sessionFiles }

/-! ## Timers

Every `setTimeout` in the handlers is recorded as a scheduled action
with its delay in milliseconds. -/

/-- The deferred callbacks the controller can schedule. -/
inductive ScheduledAction where
  /-- `setTimeout(() => this.connectToWhatsApp(), delayMs)`. -/
  | reconnect (delayMs : Nat)
  /-- The nested timer of the repeated-failure branch: reconnect after
  `delayMs`, then trigger `generatePairingCode` after `pairDelayMs`
  more. -/
  | reconnectThenPair (delayMs pairDelayMs : Nat)
  /-- The pairing-limit timer: after `delayMs`, set `qrRetries := 0` and
  reconnect. -/
  | reconnectResetQr (delayMs : Nat)
  /-- `setTimeout(() => this.generatePairingCode(), delayMs)`. -/
  | retryPairing (delayMs : Nat)
deriving DecidableEq, Repr

/-- Whether a scheduled action re-opens the transport (a reconnect
timer, as opposed to a pairing-only retry). -/
def ScheduledAction.reconnectTimer : ScheduledAction → Bool
  | .reconnect _ => true
  | .reconnectThenPair _ _ => true
  | .reconnectResetQr _ => true
  | .retryPairing _ => false

/-- The synchronous effect of a scheduled callback on the counters when
it fires (`connectToWhatsApp` and `generatePairingCode` themselves are
modelled separately). -/
def runScheduled (s : BotState) : ScheduledAction → BotState
  | .reconnect _ => s
  | .reconnectThenPair _ _ => s
  | .reconnectResetQr _ => { s with qrRetries := 0 }
  | .retryPairing _ => s

/-! ## Disconnect events and classification -/

/-- The transport's canonical "logged out" status code
(`DisconnectReason.loggedOut` of the external transport library). -/
def loggedOutCode : Nat := 401

/-- What `lastDisconnect` carries: `lastDisconnect?.error?.output?.statusCode`
and `lastDisconnect?.error?.message`, each possibly absent. -/
structure DisconnectInfo where
  statusCode : Option Nat
  errorMessage : Option String
deriving DecidableEq, Repr

/-- `lastDisconnect?.error?.output?.statusCode`. -/
def discStatusCode (lastDisconnect : Option DisconnectInfo) : Option Nat :=
  lastDisconnect.bind DisconnectInfo.statusCode

/-- `lastDisconnect?.error?.message || 'Unknown reason'`. -/
def discMessage (lastDisconnect : Option DisconnectInfo) : String :=
  (lastDisconnect.bind DisconnectInfo.errorMessage).getD "Unknown reason"

/-- The auth/connection-failure classifier of `handleConnectionUpdate`:
`isConnectionFailure || isQRFailure || isAuthFailure || isNetworkError`
computed from the error message. -/
def matchesFailureMarker (errorMessage : String) : Bool :=
  let isConnectionFailure := jsIncludes errorMessage "Connection Failure"
  let isQRFailure := jsIncludes errorMessage "QR refs attempts ended"
  let isAuthFailure := jsIncludes errorMessage "401" || jsIncludes errorMessage "403"
  let isNetworkError := jsIncludes errorMessage "ECONNRESET" || jsIncludes errorMessage "ETIMEDOUT"
  isConnectionFailure || isQRFailure || isAuthFailure || isNetworkError

/-! ## The `connection === 'close'` branch of `handleConnectionUpdate` -/

/-- The `connection === 'close'` branch of `handleConnectionUpdate`
(`src/index.js`, lines 138–190): classify the disconnect and either stop
(logged out), retry / clear on a failure marker, or retry generically
with capped backoff, clearing the session once the attempt counter
reaches its bound. -/
def handleClose (s : BotState) (lastDisconnect : Option DisconnectInfo) :
    BotState × List ScheduledAction :=
  let statusCode := discStatusCode lastDisconnect
  let errorMessage := discMessage lastDisconnect
  -- `shouldReconnect = statusCode !== DisconnectReason.loggedOut`
  if statusCode = some loggedOutCode then
    -- `logger.info('Bot logged out. Please restart to reconnect.')`
    (s, [])
  else if matchesFailureMarker errorMessage then
    if s.connectionAttempts < 3 then
      -- retry without clearing the session
      (s, [ScheduledAction.reconnect (5000 + s.connectionAttempts * 3000)])
    else
      -- clear the session, reset `qrRetries`, reconnect then pair
      ({ clearSessionData s with qrRetries := 0 },
       [ScheduledAction.reconnectThenPair 2000 3000])
  else
    let delay := min (5000 + s.connectionAttempts * 2000) 30000
    let s1 := { s with connectionAttempts := s.connectionAttempts + 1 }
    let s2 :=
      if s1.connectionAttempts ≥ s1.maxConnectionAttempts then
        { clearSessionData s1 with connectionAttempts := 0, qrRetries := 0 }
      else s1
    (s2, [ScheduledAction.reconnect delay])

/-! ## Phone-number normalization (`generatePairingCode`) -/

/-- The phone-number normalization of `generatePairingCode`
(`src/index.js`, lines 234–250): strip non-digits, then apply the
South-African format corrections. -/
def normalizePhone (raw : String) : String :=
  let p := stripNonDigits raw
  if jsLength p == 10 && jsStartsWith p "0" then
    -- e.g. 0683913716 → 27683913716
    "27" ++ jsDrop p 1
  else if jsLength p == 9 && !jsStartsWith p "27" then
    -- e.g. 683913716 → 27683913716
    "27" ++ p
  else if jsLength p == 11 && jsStartsWith p "27" then
    -- keep 27683913716 as is
    p
  else
    -- unexpected format: strip a leading 27, then prepend 27
    "27" ++ replaceLeading27 p

/-- The final-format validation of `generatePairingCode`
(`src/index.js`, line 253): 11 digits starting with `27`. -/
def validPhone (p : String) : Bool :=
  jsLength p == 11 && jsStartsWith p "27"

/-! ## `generatePairingCode` -/

/-- The environment a `generatePairingCode` call runs in:
`config.PHONE_NUMBER`, whether `this.sock` exists with a
`requestPairingCode` method, and whether the awaited
`requestPairingCode` call resolves (rather than throws). -/
structure PairingEnv where
  phoneNumberConfig : Option String
  sockReady : Bool
  requestResolves : Bool
deriving DecidableEq, Repr

/-- How a `generatePairingCode` call returned. -/
inductive PairingOutcome where
  /-- `PHONE_NUMBER` not set (or empty): logged and returned. -/
  | noPhoneConfig
  /-- `qrRetries >= maxQrRetries`: session cleared, restart scheduled. -/
  | limitReached
  /-- Normalized number failed the 11-digit / `27`-prefix contract. -/
  | invalidNumber (normalized : String)
  /-- Socket not ready: reconnect scheduled. -/
  | sockNotReady
  /-- Pairing code requested and displayed for this number. -/
  | requested (number : String)
  /-- `requestPairingCode` threw; a retry was scheduled. -/
  | requestFailedRetry (delayMs : Nat)
  /-- `requestPairingCode` threw with no attempts left; session cleared. -/
  | requestFailedCleared
deriving DecidableEq, Repr

/-- True exactly when the call issued a pairing-code request. -/
def PairingOutcome.issuedRequest : PairingOutcome → Bool
  | .requested _ => true
  | _ => false

/-- `generatePairingCode` (`src/index.js`, lines 214–304) as a pure
function of the environment and the bot state, returning the new state,
the timers scheduled, and how the call returned. -/
def generatePairingCode (env : PairingEnv) (s : BotState) :
    BotState × List ScheduledAction × PairingOutcome :=
  match env.phoneNumberConfig with
  | none => (s, [], PairingOutcome.noPhoneConfig)
  | some raw =>
    if raw = "" then
      -- the empty string is falsy: `if (!config.PHONE_NUMBER)`
      (s, [], PairingOutcome.noPhoneConfig)
    else if s.qrRetries ≥ s.maxQrRetries then
      (clearSessionData s, [ScheduledAction.reconnectResetQr 5000],
       PairingOutcome.limitReached)
    else
      let s1 := { s with qrRetries := s.qrRetries + 1 }
      let phoneNumber := normalizePhone raw
      if !validPhone phoneNumber then
        (s1, [], PairingOutcome.invalidNumber phoneNumber)
      else if !env.sockReady then
        (s1, [ScheduledAction.reconnect 2000], PairingOutcome.sockNotReady)
      else if env.requestResolves then
        (s1, [], PairingOutcome.requested phoneNumber)
      else if s1.qrRetries < s1.maxQrRetries then
        -- catch: retry with capped increasing delay
        (s1, [ScheduledAction.retryPairing (min (5000 * s1.qrRetries) 15000)],
         PairingOutcome.requestFailedRetry (min (5000 * s1.qrRetries) 15000))
      else
        (clearSessionData s1, [], PairingOutcome.requestFailedCleared)

/-! ## `handleConnectionUpdate` -/

/-- The value of `update.connection` when present. -/
inductive ConnStatus where
  | connClose
  | connConnecting
  | connOpen
deriving DecidableEq, Repr

/-- A `connection.update` event: `connection`, `lastDisconnect`, and
whether `qr` is present. -/
structure ConnectionUpdate where
  connection : Option ConnStatus
  lastDisconnect : Option DisconnectInfo
  qrPresent : Bool
deriving DecidableEq, Repr

/-- `handleConnectionUpdate` (`src/index.js`, lines 130–212): trigger
pairing when a QR is offered, then branch on the connection status.  On
`'open'`, both retry counters are reset. -/
def handleConnectionUpdate (env : PairingEnv) (s : BotState) (u : ConnectionUpdate) :
    BotState × List ScheduledAction :=
  let afterQr :=
    if u.qrPresent then
      let r := generatePairingCode env s
      (r.1, r.2.1)
    else (s, [])
  match u.connection with
  | some ConnStatus.connClose =>
    let r := handleClose afterQr.1 u.lastDisconnect
    (r.1, afterQr.2 ++ r.2)
  | some ConnStatus.connConnecting => afterQr
  | some ConnStatus.connOpen =>
    ({ afterQr.1 with qrRetries := 0, connectionAttempts := 0 }, afterQr.2)
  | none => afterQr

/-! ## Backoff policy -/

/-- The backoff formula `min(base + attempt * step, cap)` shared by the
reconnect delay (line 175: `Math.min(5000 + attempts * 2000, 30000)`)
and the pairing-retry delay (line 296: `Math.min(5000 * qrRetries, 15000)`,
i.e. base 0, step 5000, cap 15000). -/
def backoffDelay (attempt base step cap : Nat) : Nat :=
  min (base + attempt * step) cap

/-! ## Helper lemmas -/

/-- Clearing leaves no regular file in the session folder. -/
theorem storeFiles_clearStore (st : SessionDir) : storeFiles (clearStore st) = [] := by
  cases st with
  | none => rfl
  | some entries =>
    simp only [clearStore, storeFiles, List.filter_filter]
    induction entries with
    | nil => rfl
    | cons e es ih => cases hf : e.file <;> simp [hf, ih]

/-- `handleClose` on the logged-out status code: no state change, no
timer. -/
theorem handleClose_loggedOut (s : BotState) (ld : Option DisconnectInfo)
    (hcode : discStatusCode ld = some loggedOutCode) :
    handleClose s ld = (s, []) := by
  unfold handleClose
  simp [hcode]

/-- `handleClose` on a failure marker with fewer than three prior
attempts: plain retry, no session clear. -/
theorem handleClose_marker_low (s : BotState) (ld : Option DisconnectInfo)
    (hcode : discStatusCode ld ≠ some loggedOutCode)
    (hmark : matchesFailureMarker (discMessage ld) = true)
    (hlow : s.connectionAttempts < 3) :
    handleClose s ld =
      (s, [ScheduledAction.reconnect (5000 + s.connectionAttempts * 3000)]) := by
  unfold handleClose
  simp [hcode, hmark, hlow]

/-- `handleClose` on a failure marker with at least three prior
attempts: session cleared, pairing counter reset, reconnect-then-pair
timer. -/
theorem handleClose_marker_high (s : BotState) (ld : Option DisconnectInfo)
    (hcode : discStatusCode ld ≠ some loggedOutCode)
    (hmark : matchesFailureMarker (discMessage ld) = true)
    (hhigh : 3 ≤ s.connectionAttempts) :
    handleClose s ld =
      ({ clearSessionData s with qrRetries := 0 },
       [ScheduledAction.reconnectThenPair 2000 3000]) := by
  unfold handleClose
  simp [hcode, hmark, Nat.not_lt.mpr hhigh]

/-- `handleClose` on a generic disconnect: increment the counter,
clearing the session and zeroing both counters when the bound is
reached, and schedule a reconnect after the capped backoff delay. -/
theorem handleClose_generic (s : BotState) (ld : Option DisconnectInfo)
    (hcode : discStatusCode ld ≠ some loggedOutCode)
    (hmark : matchesFailureMarker (discMessage ld) = false) :
    handleClose s ld =
      ((if s.maxConnectionAttempts ≤ s.connectionAttempts + 1 then
          { s with sessionFiles := clearStore s.sessionFiles,
                   connectionAttempts := 0, qrRetries := 0 }
        else { s with connectionAttempts := s.connectionAttempts + 1 }),
       [ScheduledAction.reconnect (min (5000 + s.connectionAttempts * 2000) 30000)]) := by
  obtain ⟨qr, maxQr, ca, maxCa, dir⟩ := s
  unfold handleClose
  simp [hcode, hmark, clearSessionData]

/-- `generatePairingCode` at the attempt limit: clear the session,
schedule the reset-and-reconnect timer, issue nothing. -/
theorem generatePairingCode_limit (env : PairingEnv) (s : BotState) (raw : String)
    (hp : env.phoneNumberConfig = some raw) (hraw : raw ≠ "")
    (hlim : s.maxQrRetries ≤ s.qrRetries) :
    generatePairingCode env s =
      (clearSessionData s, [ScheduledAction.reconnectResetQr 5000],
       PairingOutcome.limitReached) := by
  unfold generatePairingCode
  rw [hp]
  simp [hraw, hlim]

/-- Below the attempt limit, every path of `generatePairingCode` leaves
the pairing counter at exactly one more than at entry. -/
theorem generatePairingCode_increment (env : PairingEnv) (s : BotState) (raw : String)
    (hp : env.phoneNumberConfig = some raw) (hraw : raw ≠ "")
    (hlt : s.qrRetries < s.maxQrRetries) :
    (generatePairingCode env s).1.qrRetries = s.qrRetries + 1 := by
  unfold generatePairingCode
  rw [hp]
  simp only [hraw, if_neg, Nat.not_le.mpr hlt, ge_iff_le, if_false]
  split
  · rfl
  · split
    · rfl
    · split
      · rfl
      · split
        · rfl
        · rfl

/-- A pairing-code request is only ever issued when the counter is
below the limit at entry. -/
theorem generatePairingCode_issued (env : PairingEnv) (s : BotState)
    (h : ((generatePairingCode env s).2.2).issuedRequest = true) :
    s.qrRetries < s.maxQrRetries := by
  by_contra hn
  rw [Nat.not_lt] at hn
  unfold generatePairingCode at h
  cases hpc : env.phoneNumberConfig with
  | none => rw [hpc] at h; simp [PairingOutcome.issuedRequest] at h
  | some raw =>
    rw [hpc] at h
    by_cases hr : raw = ""
    · simp [hr, PairingOutcome.issuedRequest] at h
    · simp [hr, hn, PairingOutcome.issuedRequest] at h

/-! ## Claim C1 -/

/-- C1 counterexample: a disconnect whose status code is not the
logged-out code and whose reason text contains the marker
`Connection Failure`, arriving with `connectionAttempts = 0`, leaves the
session folder untouched (the creds file survives), so the claim that
every such disconnect invalidates the session via a clear is false. -/
theorem C1_counterexample :
    discStatusCode (some ⟨some 428, some "Connection Failure"⟩) ≠ some loggedOutCode ∧
    matchesFailureMarker (discMessage (some ⟨some 428, some "Connection Failure"⟩)) = true ∧
    (handleClose (mkBot (some [⟨"creds.json", true⟩]))
        (some ⟨some 428, some "Connection Failure"⟩)).1.sessionFiles
      = some [⟨"creds.json", true⟩] ∧
    storeFiles (some [⟨"creds.json", true⟩]) ≠ [] := by decide

/-- C1 (amended): on a disconnect whose status code is not the
logged-out code and whose reason text matches an auth/connection-failure
or transient-network marker, the controller clears the session only when
`connectionAttempts` has already reached 3: below 3 it schedules a plain
reconnect after `5000 + attempts * 3000` ms with the session intact;
at 3 or more it clears the session, resets only the pairing counter
(`qrRetries := 0`), and schedules a reconnect after a fixed 2000 ms
delay followed by a pairing trigger 3000 ms later.  In both branches
`connectionAttempts` is neither incremented nor reset. -/
theorem C1_marker_disconnect (s : BotState) (ld : Option DisconnectInfo)
    (hcode : discStatusCode ld ≠ some loggedOutCode)
    (hmark : matchesFailureMarker (discMessage ld) = true) :
    (s.connectionAttempts < 3 →
      handleClose s ld =
        (s, [ScheduledAction.reconnect (5000 + s.connectionAttempts * 3000)])) ∧
    (3 ≤ s.connectionAttempts →
      handleClose s ld =
        ({ clearSessionData s with qrRetries := 0 },
         [ScheduledAction.reconnectThenPair 2000 3000]) ∧
      storeFiles (handleClose s ld).1.sessionFiles = []) ∧
    (handleClose s ld).1.connectionAttempts = s.connectionAttempts := by
  refine ⟨fun hlow => handleClose_marker_low s ld hcode hmark hlow, fun hhigh => ?_, ?_⟩
  · have he := handleClose_marker_high s ld hcode hmark hhigh
    refine ⟨he, ?_⟩
    rw [he]
    simpa [clearSessionData] using storeFiles_clearStore s.sessionFiles
  · by_cases hlow : s.connectionAttempts < 3
    · rw [handleClose_marker_low s ld hcode hmark hlow]
    · rw [handleClose_marker_high s ld hcode hmark (Nat.not_lt.mp hlow)]
      simp [clearSessionData]

/-- C1 witness: a concrete `ECONNRESET` disconnect at
`connectionAttempts = 0` takes the no-clear branch with a 5000 ms
reconnect. -/
theorem C1_marker_disconnect_witness :
    handleClose (mkBot (some [⟨"creds.json", true⟩])) (some ⟨some 428, some "read ECONNRESET"⟩)
      = (mkBot (some [⟨"creds.json", true⟩]), [ScheduledAction.reconnect 5000]) :=
  (C1_marker_disconnect _ _ (by decide) (by decide)).1 (by decide)

/-! ## Claim C2 -/

/-- C2: on a disconnect whose status code equals the transport's
canonical logged-out code, `handleClose` leaves the state unchanged and
schedules no timer at all — in particular zero reconnect timers — so no
automatic retry of any kind follows. -/
theorem C2_logged_out_terminal (s : BotState) (ld : Option DisconnectInfo)
    (hcode : discStatusCode ld = some loggedOutCode) :
    handleClose s ld = (s, []) ∧
    ((handleClose s ld).2.filter ScheduledAction.reconnectTimer).length = 0 := by
  have he := handleClose_loggedOut s ld hcode
  exact ⟨he, by rw [he]; rfl⟩

/-- C2 witness: a concrete logged-out disconnect (status code 401)
changes nothing and schedules nothing. -/
theorem C2_logged_out_terminal_witness :
    handleClose (mkBot (some [⟨"creds.json", true⟩]))
        (some ⟨some loggedOutCode, some "Intentional Logout"⟩)
      = (mkBot (some [⟨"creds.json", true⟩]), []) :=
  (C2_logged_out_terminal _ _ (by decide)).1

/-! ## Claim C3 -/

/-- C3: on a generic (non-marker, non-logged-out) disconnect after
which `connectionAttempts` reaches `maxConnectionAttempts`, the session
folder is cleared of all files and both retry counters are reset to
zero, in the same step that schedules the next reconnect. -/
theorem C3_generic_limit_clears (s : BotState) (ld : Option DisconnectInfo)
    (hcode : discStatusCode ld ≠ some loggedOutCode)
    (hmark : matchesFailureMarker (discMessage ld) = false)
    (hlim : s.maxConnectionAttempts ≤ s.connectionAttempts + 1) :
    handleClose s ld =
      ({ s with sessionFiles := clearStore s.sessionFiles,
                connectionAttempts := 0, qrRetries := 0 },
       [ScheduledAction.reconnect (min (5000 + s.connectionAttempts * 2000) 30000)]) ∧
    storeFiles (handleClose s ld).1.sessionFiles = [] := by
  have he := handleClose_generic s ld hcode hmark
  rw [if_pos hlim] at he
  exact ⟨he, by rw [he]; exact storeFiles_clearStore s.sessionFiles⟩

/-- C3 witness: with `maxConnectionAttempts = 4`, the 4th consecutive
generic disconnect (arriving with `connectionAttempts = 3`) clears the
session and zeroes both counters. -/
theorem C3_generic_limit_clears_witness :
    handleClose
        { qrRetries := 1, maxQrRetries := 5, connectionAttempts := 3,
          maxConnectionAttempts := 4, sessionFiles := some [⟨"creds.json", true⟩] }
        (some ⟨some 428, some "Stream Errored (unknown)"⟩)
      = ({ qrRetries := 0, maxQrRetries := 5, connectionAttempts := 0,
           maxConnectionAttempts := 4, sessionFiles := some [] },
         [ScheduledAction.reconnect 11000]) := by
  have h := (C3_generic_limit_clears
    { qrRetries := 1, maxQrRetries := 5, connectionAttempts := 3,
      maxConnectionAttempts := 4, sessionFiles := some [⟨"creds.json", true⟩] }
    (some ⟨some 428, some "Stream Errored (unknown)"⟩)
    (by decide) (by decide) (by decide)).1
  simpa [clearStore] using h

/-! ## Claim C4 -/

/-- C4 counterexample: a generic disconnect arriving with
`connectionAttempts = 9` under the constructor bound
`maxConnectionAttempts = 10` leaves the counter at 0, not 10, so the
claim that `connectionAttempts` increments exactly once on every
generic disconnect is false. -/
theorem C4_counterexample :
    discStatusCode (some ⟨some 428, some "Stream Errored (unknown)"⟩) ≠ some loggedOutCode ∧
    matchesFailureMarker (discMessage (some ⟨some 428, some "Stream Errored (unknown)"⟩)) = false ∧
    (handleClose { mkBot (some []) with connectionAttempts := 9 }
        (some ⟨some 428, some "Stream Errored (unknown)"⟩)).1.connectionAttempts = 0 ∧
    (9 : Nat) + 1 ≠ 0 := by decide

/-- C4 (amended): on every generic-classified disconnect,
`connectionAttempts` becomes its old value plus one, except when that
incremented value reaches `maxConnectionAttempts`, in which case it is
reset to 0 instead; and every `connection.update` reporting `'open'`
resets both `connectionAttempts` and the pairing counter `qrRetries`
to zero. -/
theorem C4_attempt_counting :
    (∀ (s : BotState) (ld : Option DisconnectInfo),
      discStatusCode ld ≠ some loggedOutCode →
      matchesFailureMarker (discMessage ld) = false →
      (handleClose s ld).1.connectionAttempts =
        (if s.maxConnectionAttempts ≤ s.connectionAttempts + 1 then 0
         else s.connectionAttempts + 1)) ∧
    (∀ (env : PairingEnv) (s : BotState) (u : ConnectionUpdate),
      u.connection = some ConnStatus.connOpen →
      (handleConnectionUpdate env s u).1.connectionAttempts = 0 ∧
      (handleConnectionUpdate env s u).1.qrRetries = 0) := by
  constructor
  · intro s ld hcode hmark
    rw [handleClose_generic s ld hcode hmark]
    by_cases hlim : s.maxConnectionAttempts ≤ s.connectionAttempts + 1 <;> simp [hlim]
  · intro env s u hu
    simp [handleConnectionUpdate, hu]

/-- C4 witness: a generic disconnect below the bound increments the
counter from 2 to 3, and an `'open'` update from attempt count 7 resets
both counters to zero. -/
theorem C4_attempt_counting_witness :
    (handleClose { mkBot (some []) with connectionAttempts := 2 }
        (some ⟨some 428, some "Stream Errored (unknown)"⟩)).1.connectionAttempts
      = (if (10 : Nat) ≤ 2 + 1 then 0 else 2 + 1) ∧
    (handleConnectionUpdate ⟨some "27683913716", true, true⟩
        { mkBot (some []) with connectionAttempts := 7, qrRetries := 2 }
        ⟨some ConnStatus.connOpen, none, false⟩).1.connectionAttempts = 0 := by
  refine ⟨C4_attempt_counting.1 _ _ (by decide) (by decide), ?_⟩
  exact (C4_attempt_counting.2 ⟨some "27683913716", true, true⟩
    { mkBot (some []) with connectionAttempts := 7, qrRetries := 2 }
    ⟨some ConnStatus.connOpen, none, false⟩ rfl).1

/-! ## Claim C5 -/

/-- C5: the backoff policy is the pure function
`min(base + attempt * step, cap)`; it never exceeds `cap`, is
non-decreasing in the attempt count, and is the exact delay used both
for generic reconnects (base 5000, step 2000, cap 30000, at the attempt
count current when the disconnect arrives) and for pairing-request
retries (base 0, step 5000, cap 15000, at the just-incremented pairing
attempt count). -/
theorem C5_backoff_policy :
    (∀ attempt base step cap : Nat, backoffDelay attempt base step cap ≤ cap) ∧
    (∀ a b base step cap : Nat, a ≤ b →
      backoffDelay a base step cap ≤ backoffDelay b base step cap) ∧
    (∀ (s : BotState) (ld : Option DisconnectInfo),
      discStatusCode ld ≠ some loggedOutCode →
      matchesFailureMarker (discMessage ld) = false →
      (handleClose s ld).2 =
        [ScheduledAction.reconnect (backoffDelay s.connectionAttempts 5000 2000 30000)]) ∧
    (∀ (env : PairingEnv) (s : BotState) (raw : String),
      env.phoneNumberConfig = some raw → raw ≠ "" →
      s.qrRetries < s.maxQrRetries →
      validPhone (normalizePhone raw) = true →
      env.sockReady = true → env.requestResolves = false →
      s.qrRetries + 1 < s.maxQrRetries →
      (generatePairingCode env s).2.1 =
        [ScheduledAction.retryPairing (backoffDelay (s.qrRetries + 1) 0 5000 15000)]) := by
  refine ⟨fun a base step cap => min_le_right _ _,
          fun a b base step cap h =>
            min_le_min (add_le_add_left (mul_le_mul_right' h step) base) le_rfl,
          fun s ld hcode hmark => ?_, fun env s raw hp hraw hlt hvalid hsock hres hlt2 => ?_⟩
  · rw [handleClose_generic s ld hcode hmark]
    simp [backoffDelay]
  · unfold generatePairingCode
    rw [hp]
    simp [hraw, Nat.not_le.mpr hlt, hvalid, hsock, hres, hlt2, backoffDelay, Nat.mul_comm]

/-- C5 witness: concrete instances of the cap bound, monotonicity, the
reconnect delay at attempt 0, and the pairing-retry delay at pairing
attempt 1. -/
theorem C5_backoff_policy_witness :
    backoffDelay 20 5000 2000 30000 ≤ 30000 ∧
    backoffDelay 2 5000 2000 30000 ≤ backoffDelay 7 5000 2000 30000 ∧
    (handleClose (mkBot (some [])) (some ⟨some 428, some "Stream Errored (unknown)"⟩)).2
      = [ScheduledAction.reconnect (backoffDelay 0 5000 2000 30000)] ∧
    (generatePairingCode ⟨some "27683913716", true, false⟩ (mkBot (some []))).2.1
      = [ScheduledAction.retryPairing (backoffDelay 1 0 5000 15000)] :=
  ⟨C5_backoff_policy.1 20 5000 2000 30000,
   C5_backoff_policy.2.1 2 7 5000 2000 30000 (by decide),
   C5_backoff_policy.2.2.1 _ _ (by decide) (by decide),
   C5_backoff_policy.2.2.2 ⟨some "27683913716", true, false⟩ (mkBot (some [])) "27683913716"
     rfl (by decide) (by decide) (by decide) rfl rfl (by decide)⟩

/-! ## Claim C6 -/

/-- C6 counterexample: two generic disconnects processed back to back,
with the first event's reconnect timer still pending (never fired
between the events), each schedule one reconnect timer — the second
event does schedule a second timer, so the single-outstanding-timer
guard claimed does not exist in the code. -/
theorem C6_counterexample :
    ((handleClose (mkBot (some []))
        (some ⟨some 428, some "Stream Errored (unknown)"⟩)).2.length = 1) ∧
    ((handleClose
        (handleClose (mkBot (some []))
          (some ⟨some 428, some "Stream Errored (unknown)"⟩)).1
        (some ⟨some 428, some "Stream Errored (unknown)"⟩)).2.length = 1) := by decide

/-- C6 (amended): every disconnect whose status code is not the
logged-out code schedules exactly one timer, and that timer is a
reconnect timer, unconditionally — there is no guard consulting pending
timers, so consecutive disconnects leave multiple reconnect timers
outstanding. -/
theorem C6_timer_per_disconnect (s : BotState) (ld : Option DisconnectInfo)
    (hcode : discStatusCode ld ≠ some loggedOutCode) :
    (handleClose s ld).2.length = 1 ∧
    ((handleClose s ld).2.filter ScheduledAction.reconnectTimer).length = 1 := by
  by_cases hmark : matchesFailureMarker (discMessage ld) = true
  · by_cases hlow : s.connectionAttempts < 3
    · rw [handleClose_marker_low s ld hcode hmark hlow]; exact ⟨rfl, rfl⟩
    · rw [handleClose_marker_high s ld hcode hmark (Nat.not_lt.mp hlow)]; exact ⟨rfl, rfl⟩
  · rw [handleClose_generic s ld hcode (by simpa using hmark)]; exact ⟨rfl, rfl⟩

/-- C6 witness: a concrete generic disconnect schedules exactly one
reconnect timer. -/
theorem C6_timer_per_disconnect_witness :
    (handleClose (mkBot (some [])) (some ⟨some 408, some "Connection was lost"⟩)).2.length = 1 :=
  (C6_timer_per_disconnect _ _ (by decide)).1

/-! ## Claim C7 -/

/-- C7: phone-number normalization maps `"0683913716"` and
`"683913716"` to `"27683913716"`, leaves `"27683913716"` unchanged, and
normalizes `"123"` to `"27123"`, which fails the 11-digit / `27`-prefix
contract, so a `generatePairingCode` call configured with `"123"`
returns with `invalidNumber`, schedules nothing, and issues no pairing
request. -/
theorem C7_phone_normalization :
    normalizePhone "0683913716" = "27683913716" ∧
    normalizePhone "683913716" = "27683913716" ∧
    normalizePhone "27683913716" = "27683913716" ∧
    normalizePhone "123" = "27123" ∧
    validPhone "27123" = false ∧
    generatePairingCode ⟨some "123", true, true⟩ (mkBot (some [⟨"creds.json", true⟩]))
      = ({ mkBot (some [⟨"creds.json", true⟩]) with qrRetries := 1 }, [],
         PairingOutcome.invalidNumber "27123") ∧
    (PairingOutcome.invalidNumber "27123").issuedRequest = false := by decide

/-! ## Claim C8 -/

/-- C8: a pairing-code request is only ever issued when the pairing
attempt counter is below `maxQrRetries` at entry; and a
`generatePairingCode` call entered with the counter at the limit clears
the session (no file survives), schedules a single
reset-and-reconnect timer with a 5000 ms cooldown whose firing sets the
pairing counter to zero, and issues no pairing request. -/
theorem C8_pairing_limit (env : PairingEnv) (s : BotState) (raw : String)
    (hp : env.phoneNumberConfig = some raw) (hraw : raw ≠ "")
    (hlim : s.maxQrRetries ≤ s.qrRetries) :
    generatePairingCode env s =
      (clearSessionData s, [ScheduledAction.reconnectResetQr 5000],
       PairingOutcome.limitReached) ∧
    storeFiles (generatePairingCode env s).1.sessionFiles = [] ∧
    (runScheduled (generatePairingCode env s).1 (ScheduledAction.reconnectResetQr 5000)).qrRetries = 0 ∧
    PairingOutcome.limitReached.issuedRequest = false ∧
    (∀ (env' : PairingEnv) (s' : BotState),
      ((generatePairingCode env' s').2.2).issuedRequest = true →
      s'.qrRetries < s'.maxQrRetries) := by
  have he := generatePairingCode_limit env s raw hp hraw hlim
  refine ⟨he, ?_, ?_, rfl, fun env' s' h => generatePairingCode_issued env' s' h⟩
  · rw [he]
    simpa [clearSessionData] using storeFiles_clearStore s.sessionFiles
  · rw [he]
    rfl

/-- C8 witness: a concrete call at the limit (`qrRetries = 5` with
`maxQrRetries = 5`) clears the session and schedules the cooldown
restart. -/
theorem C8_pairing_limit_witness :
    generatePairingCode ⟨some "27683913716", true, true⟩
        { mkBot (some [⟨"creds.json", true⟩]) with qrRetries := 5 }
      = (clearSessionData { mkBot (some [⟨"creds.json", true⟩]) with qrRetries := 5 },
         [ScheduledAction.reconnectResetQr 5000], PairingOutcome.limitReached) :=
  (C8_pairing_limit ⟨some "27683913716", true, true⟩
    { mkBot (some [⟨"creds.json", true⟩]) with qrRetries := 5 }
    "27683913716" rfl (by decide) (by decide)).1

/-! ## Claim C9 -/

/-- C9: `clearSessionData` is idempotent — clearing twice equals
clearing once, after any clear the store holds no files, and clearing an
already-empty store is a no-op (the operation is total, so no error is
raised). -/
theorem C9_clear_idempotent (s : BotState) :
    clearSessionData (clearSessionData s) = clearSessionData s ∧
    storeFiles (clearSessionData s).sessionFiles = [] ∧
    clearSessionData { s with sessionFiles := some [] } =
      { s with sessionFiles := some [] } := by
  obtain ⟨qr, maxQr, ca, maxCa, dir⟩ := s
  refine ⟨?_, ?_, by simp [clearSessionData, clearStore]⟩
  · simp only [clearSessionData]
    congr 1
    cases dir with
    | none => rfl
    | some es => simp [clearStore, List.filter_filter]
  · simpa [clearSessionData] using storeFiles_clearStore dir

/-! ## Claim C10 -/

/-- C10: every `generatePairingCode` call entered with a configured
phone number and the pairing counter below its limit leaves the counter
at exactly one more than at entry, on every path; in particular, when
the normalized number fails validation the call returns `invalidNumber`
with no request issued and no timer scheduled, yet the counter was
already incremented — the attempt is consumed. -/
theorem C10_increment_before_validation (env : PairingEnv) (s : BotState) (raw : String)
    (hp : env.phoneNumberConfig = some raw) (hraw : raw ≠ "")
    (hlt : s.qrRetries < s.maxQrRetries) :
    (generatePairingCode env s).1.qrRetries = s.qrRetries + 1 ∧
    (validPhone (normalizePhone raw) = false →
      generatePairingCode env s =
        ({ s with qrRetries := s.qrRetries + 1 }, [],
         PairingOutcome.invalidNumber (normalizePhone raw))) := by
  refine ⟨generatePairingCode_increment env s raw hp hraw hlt, fun hinv => ?_⟩
  unfold generatePairingCode
  rw [hp]
  simp [hraw, Nat.not_le.mpr hlt, hinv]

/-- C10 witness: the rejected number `"123"` still consumes one pairing
attempt (the counter goes from 0 to 1). -/
theorem C10_increment_before_validation_witness :
    (generatePairingCode ⟨some "123", true, true⟩ (mkBot none)).1.qrRetries = 0 + 1 :=
  (C10_increment_before_validation ⟨some "123", true, true⟩ (mkBot none) "123"
    rfl (by decide) (by decide)).1

end WhatsAppBot
